import Mathlib

/-!
Shallow embedding of `src/robot.cpp` from libfranka: the public facade
`franka::Robot` — its session guard (`control_mutex_`), the mode-checked
control loop, the read loop, `readOnce`, and the one-shot configuration
commands forwarded through `Robot::Impl::executeCommand`.

Modelling conventions:
* `std::mutex control_mutex_` is a `Bool` (`true` = locked); `try_to_lock`
  acquisition and the RAII release of `std::unique_lock` are made explicit.
* The robot-side channel is a finite list of incoming wire states; a loop
  that would block forever waiting for a state ends with outcome `starved`.
* A C++ `throw` is the outcome `err e`; the RAII destructor of the
  `unique_lock` still runs on that path, exactly as in C++.
* Every externally visible effect (TCP command sent, state received,
  user callback invoked, per-cycle UDP motion command) is recorded in an
  ordered event trace, so ordering claims are statements about the trace.
* `double` values carried by configuration commands are modelled as `Int`
  tokens: the facade performs no arithmetic on them, it forwards them
  verbatim, so their semantics never matters here.
-/

namespace Franka

/-- `franka::ControllerMode` (public header, not in `src/`).
`robot.cpp` handles exactly `kJointImpedance` and `kCartesianImpedance`
and has a `default:` branch throwing `std::invalid_argument`; `otherMode`
stands for any enumerator value outside the two handled ones, which is
what that branch catches. -/
inductive ControllerMode where
  | kJointImpedance
  | kCartesianImpedance
  | otherMode
deriving DecidableEq, Repr

/-- `research_interface::robot::ControllerMode`, the controller-mode tag
carried inside each received wire state. `kOther` abstracts the remaining
enumerators of that wire enum (header not in `src/`). -/
inductive RIControllerMode where
  | kJointImpedance
  | kCartesianImpedance
  | kOther
deriving DecidableEq, Repr

/-- `research_interface::robot::SetControllerMode::ControllerMode`,
the mode payload of the one-shot set-controller-mode command. -/
inductive SCMode where
  | kJointImpedance
  | kCartesianImpedance
deriving DecidableEq, Repr

/-- `research_interface::robot::RobotState`: the wire state received once
per cycle. Only the controller-mode tag is inspected by `robot.cpp`; all
other measured quantities are abstracted into `payload`. -/
structure RIRobotState where
  controller_mode : RIControllerMode
  payload : Nat
deriving DecidableEq, Repr

/-- `franka::RobotState`: the externally visible state handed to user
callbacks. Again only the mode tag plus an opaque payload. -/
structure RobotState where
  controller_mode : RIControllerMode
  payload : Nat
deriving DecidableEq, Repr

/-- Modelled from the spec: `convertRobotState` (robot_state conversion,
not in `src/`) — §4.5 "receive state, convert to the externally-visible
state representation". The conversion copies the measured fields,
including the controller-mode tag, into the public representation. -/
def convertRobotState (s : RIRobotState) : RobotState :=
  { controller_mode := s.controller_mode, payload := s.payload }

/-- The one-shot TCP commands of `research_interface::robot` that
`robot.cpp` forwards through `impl_->executeCommand<...>`.  Threshold and
pose arrays (`std::array<double, N>`) are opaque `List Int` tokens. -/
inductive RICommand where
  | SetControllerMode (mode : SCMode)
  | SetCollisionBehavior
      (lower_torque_thresholds_acceleration : List Int)
      (upper_torque_thresholds_acceleration : List Int)
      (lower_torque_thresholds_nominal : List Int)
      (upper_torque_thresholds_nominal : List Int)
      (lower_force_thresholds_acceleration : List Int)
      (upper_force_thresholds_acceleration : List Int)
      (lower_force_thresholds_nominal : List Int)
      (upper_force_thresholds_nominal : List Int)
  | SetJointImpedance (K_theta : List Int)
  | SetCartesianImpedance (K_x : List Int)
  | SetGuidingMode (guiding_mode : List Bool) (elbow : Bool)
  | SetEEToK (EE_T_K : List Int)
  | SetFToEE (F_T_EE : List Int)
  | SetLoad (load_mass : Int) (F_x_Cload : List Int) (load_inertia : List Int)
  | AutomaticErrorRecovery
  | GetCartesianLimit (id : Int)
deriving DecidableEq, Repr

/-- The four motion-generator target representations of the
`MotionGeneratorLoop` template instantiations in `robot.cpp`. -/
inductive MotionTarget where
  | jointPositions (q : List Int)
  | jointVelocities (dq : List Int)
  | cartesianPose (pose : List Int)
  | cartesianVelocities (v : List Int)
deriving DecidableEq, Repr

/-- One externally visible effect of a facade call, in program order. -/
inductive Event where
  /-- A one-shot TCP command sent via `impl_->executeCommand`. -/
  | sent (c : RICommand)
  /-- One wire state received from the robot (`update` / `updateWithoutConversion`). -/
  | received (s : RIRobotState)
  /-- A user callback invoked on the converted state. -/
  | callback (s : RobotState)
  /-- A per-cycle motion command sent during the periodic phase
  (`motion_finished` flag included), distinct from the TCP commands. -/
  | sentMotion (t : MotionTarget) (motion_finished : Bool)
  /-- The additional terminal command cycle after a clean finish. -/
  | sentTerminal
deriving DecidableEq, Repr

/-- The exceptions `robot.cpp` can throw from the modelled paths. -/
inductive SessionError where
  /-- `InvalidOperationException`: "Cannot perform this operation while
  another control or read operation is running." -/
  | invalidOperation
  /-- `ControlException`: "Controller mode changed." -/
  | controlException
  /-- `std::invalid_argument`: "Invalid controller mode given." -/
  | invalidArgument
deriving DecidableEq, Repr

/-- How a facade call ends: normal return, a thrown exception, or the
input stream ran dry (the real loop would block forever on the receive). -/
inductive ControlOutcome where
  | ok
  | err (e : SessionError)
  | starved
deriving DecidableEq, Repr

/-- The observable result of one public facade call: how it ended, the
lock state of `control_mutex_` afterwards, how many times the guard was
released, and the ordered event trace of the call. -/
structure SessionResult where
  outcome : ControlOutcome
  mutexAfter : Bool
  releases : Nat
  events : List Event
deriving DecidableEq, Repr

/-- TCP commands of a trace, in order. -/
def sentOf (evs : List Event) : List RICommand :=
  evs.filterMap fun e =>
    match e with
    | .sent c => some c
    | _ => none

/-- Wire states received in a trace, in order. -/
def receivedOf (evs : List Event) : List RIRobotState :=
  evs.filterMap fun e =>
    match e with
    | .received s => some s
    | _ => none

/-- States on which a user callback was invoked, in order. -/
def callbacksOf (evs : List Event) : List RobotState :=
  evs.filterMap fun e =>
    match e with
    | .callback s => some s
    | _ => none

/-- The result of an entry point whose `try_to_lock` failed: the
`InvalidOperationException` is thrown before anything else happens, so
the trace is empty, the guard is left as found (still held by the other
session) and is not released by this call. -/
def busyResult : SessionResult :=
  { outcome := .err .invalidOperation, mutexAfter := true, releases := 0, events := [] }

/-- The scaffold common to every public session entry point in `robot.cpp`:

```
std::unique_lock<std::mutex> l(control_mutex_, std::try_to_lock);
if (!l.owns_lock()) {
  throw InvalidOperationException("... another control or read operation is running.");
}
<body>
```

`mutex` is the state of `control_mutex_` at the call (`true` = held by
another session). On successful acquisition the body runs; whatever way
the body exits — normal return, early break, or a propagated exception —
the `unique_lock` destructor runs exactly once at scope exit and unlocks
the mutex, which is C++'s RAII guarantee. -/
def guardedSession (mutex : Bool) (body : ControlOutcome × List Event) : SessionResult :=
  if mutex then
    busyResult
  else
    { outcome := body.1, mutexAfter := false, releases := 1, events := body.2 }

/-- The `switch (controller_mode)` of `Robot::control(ControllerMode,
read_callback)` (robot.cpp:48–61): selects the wire command mode and the
expected state mode, or `none` for the `default:` branch that throws
`std::invalid_argument("Invalid controller mode given.")`. -/
def modeSelect : ControllerMode → Option (SCMode × RIControllerMode)
  | .kJointImpedance => some (.kJointImpedance, .kJointImpedance)
  | .kCartesianImpedance => some (.kCartesianImpedance, .kCartesianImpedance)
  | .otherMode => none

/-- The `while (true)` loop of `Robot::control(ControllerMode,
read_callback)` (robot.cpp:64–72): per cycle, receive one wire state via
`impl_->updateWithoutConversion()`; if its mode differs from the
requested one, throw `ControlException("Controller mode changed.")`;
otherwise invoke the read callback on the converted state and continue
while it returns `true`, breaking out on `false`. -/
def controlReadLoop (state_controller_mode : RIControllerMode)
    (read_callback : RobotState → Bool) :
    List RIRobotState → ControlOutcome × List Event
  | [] => (.starved, [])
  | s :: rest =>
    if s.controller_mode ≠ state_controller_mode then
      (.err .controlException, [.received s])
    else if read_callback (convertRobotState s) then
      let r := controlReadLoop state_controller_mode read_callback rest
      (r.1, .received s :: .callback (convertRobotState s) :: r.2)
    else
      (.ok, [.received s, .callback (convertRobotState s)])

/-- Body of `Robot::control(ControllerMode, read_callback)` after the
guard (robot.cpp:48–72): run the mode switch; on the `default:` branch
throw before any command is sent; otherwise send the one-shot
`SetControllerMode` command and enter the loop. -/
def controlReadBody (controller_mode : ControllerMode)
    (read_callback : RobotState → Bool) (incoming : List RIRobotState) :
    ControlOutcome × List Event :=
  match modeSelect controller_mode with
  | none => (.err .invalidArgument, [])
  | some (mode, state_controller_mode) =>
    let r := controlReadLoop state_controller_mode read_callback incoming
    (r.1, .sent (.SetControllerMode mode) :: r.2)

namespace Robot

/-- `Robot::control(ControllerMode controller_mode,
std::function<bool(const RobotState&)> read_callback)` (robot.cpp:39–73). -/
def control_mode_read (mutex : Bool) (controller_mode : ControllerMode)
    (read_callback : RobotState → Bool) (incoming : List RIRobotState) :
    SessionResult :=
  guardedSession mutex (controlReadBody controller_mode read_callback incoming)

end Robot

/-- Modelled from the spec: the periodic phase of `MotionGeneratorLoop`
(`motion_generator_loop.h/.cpp` are not in `src/`), from §4.4 together
with §4.2 and §4.3: per cycle, receive one state; any cycle where the
reported mode diverges from the requested mode is terminal, surfacing a
control fault; otherwise invoke the motion-generator callback on the
converted state and send the per-cycle command carrying its target and
finished flag; when the callback signals finish, send one additional
terminal command cycle and exit the loop normally. -/
def motionGeneratorPhase (state_controller_mode : RIControllerMode)
    (motion_generator_callback : RobotState → MotionTarget × Bool) :
    List RIRobotState → ControlOutcome × List Event
  | [] => (.starved, [])
  | s :: rest =>
    if s.controller_mode ≠ state_controller_mode then
      (.err .controlException, [.received s])
    else
      let obs := convertRobotState s
      let out := motion_generator_callback obs
      if out.2 then
        (.ok, [.received s, .callback obs, .sentMotion out.1 true, .sentTerminal])
      else
        let r := motionGeneratorPhase state_controller_mode motion_generator_callback rest
        (r.1, .received s :: .callback obs :: .sentMotion out.1 false :: r.2)

/-- Modelled from the spec: body of a motion-generator + controller-mode
session after the guard, from §4.4: the loop validates the desired
controller mode (an invalid selection is an invalid-argument fault,
reported synchronously with no command sent, §7), "issues the one-shot
mode-set command before entering the periodic phase", and the
controller-mode state machine governs fault detection for the remainder
of the session. -/
def motionGeneratorBody (controller_mode : ControllerMode)
    (motion_generator_callback : RobotState → MotionTarget × Bool)
    (incoming : List RIRobotState) : ControlOutcome × List Event :=
  match modeSelect controller_mode with
  | none => (.err .invalidArgument, [])
  | some (mode, state_controller_mode) =>
    let r := motionGeneratorPhase state_controller_mode motion_generator_callback incoming
    (r.1, .sent (.SetControllerMode mode) :: r.2)

/-- The `while (true)` loop of `Robot::read` (robot.cpp:215–221): per
cycle, `impl_->update()` receives one wire state and converts it; the
read callback is invoked on the converted state; continue while it
returns `true`, break on `false`. No command is produced. -/
def readLoop (read_callback : RobotState → Bool) :
    List RIRobotState → ControlOutcome × List Event
  | [] => (.starved, [])
  | s :: rest =>
    if read_callback (convertRobotState s) then
      let r := readLoop read_callback rest
      (r.1, .received s :: .callback (convertRobotState s) :: r.2)
    else
      (.ok, [.received s, .callback (convertRobotState s)])

namespace Robot

/-- `Robot::control(std::function<Torques(...)> control_callback)`
(robot.cpp:75–85). `ControlLoop` (`control_loop.h/.cpp`, not in `src/`)
is abstracted: `body` is the outcome and trace of constructing the loop
and running `loop()`, universally quantified in the theorems. -/
def control_torque (mutex : Bool) (body : ControlOutcome × List Event) :
    SessionResult :=
  guardedSession mutex body

/-- `Robot::control(control_callback, JointPositions
motion_generator_callback)` (robot.cpp:87–100), torque + motion
generator; the `MotionGeneratorLoop<JointPositions>` body is abstract. -/
def control_torque_jointPositions (mutex : Bool)
    (body : ControlOutcome × List Event) : SessionResult :=
  guardedSession mutex body

/-- `Robot::control(control_callback, JointVelocities
motion_generator_callback)` (robot.cpp:102–115); abstract loop body. -/
def control_torque_jointVelocities (mutex : Bool)
    (body : ControlOutcome × List Event) : SessionResult :=
  guardedSession mutex body

/-- `Robot::control(control_callback, CartesianPose
motion_generator_callback)` (robot.cpp:117–130); abstract loop body. -/
def control_torque_cartesianPose (mutex : Bool)
    (body : ControlOutcome × List Event) : SessionResult :=
  guardedSession mutex body

/-- `Robot::control(control_callback, CartesianVelocities
motion_generator_callback)` (robot.cpp:132–145); abstract loop body. -/
def control_torque_cartesianVelocities (mutex : Bool)
    (body : ControlOutcome × List Event) : SessionResult :=
  guardedSession mutex body

/-- `Robot::control(JointPositions motion_generator_callback,
ControllerMode controller_mode)` (robot.cpp:147–160): guard, then
`MotionGeneratorLoop<JointPositions>` with the desired mode (its
behavior spec-modelled by `motionGeneratorBody`). -/
def control_jointPositions_mode (mutex : Bool)
    (motion_generator_callback : RobotState → List Int × Bool)
    (controller_mode : ControllerMode) (incoming : List RIRobotState) :
    SessionResult :=
  guardedSession mutex
    (motionGeneratorBody controller_mode
      (fun s => (MotionTarget.jointPositions (motion_generator_callback s).1,
                 (motion_generator_callback s).2))
      incoming)

/-- `Robot::control(JointVelocities motion_generator_callback,
ControllerMode controller_mode)` (robot.cpp:162–175). -/
def control_jointVelocities_mode (mutex : Bool)
    (motion_generator_callback : RobotState → List Int × Bool)
    (controller_mode : ControllerMode) (incoming : List RIRobotState) :
    SessionResult :=
  guardedSession mutex
    (motionGeneratorBody controller_mode
      (fun s => (MotionTarget.jointVelocities (motion_generator_callback s).1,
                 (motion_generator_callback s).2))
      incoming)

/-- `Robot::control(CartesianPose motion_generator_callback,
ControllerMode controller_mode)` (robot.cpp:177–190). -/
def control_cartesianPose_mode (mutex : Bool)
    (motion_generator_callback : RobotState → List Int × Bool)
    (controller_mode : ControllerMode) (incoming : List RIRobotState) :
    SessionResult :=
  guardedSession mutex
    (motionGeneratorBody controller_mode
      (fun s => (MotionTarget.cartesianPose (motion_generator_callback s).1,
                 (motion_generator_callback s).2))
      incoming)

/-- `Robot::control(CartesianVelocities motion_generator_callback,
ControllerMode controller_mode)` (robot.cpp:192–205). -/
def control_cartesianVelocities_mode (mutex : Bool)
    (motion_generator_callback : RobotState → List Int × Bool)
    (controller_mode : ControllerMode) (incoming : List RIRobotState) :
    SessionResult :=
  guardedSession mutex
    (motionGeneratorBody controller_mode
      (fun s => (MotionTarget.cartesianVelocities (motion_generator_callback s).1,
                 (motion_generator_callback s).2))
      incoming)

/-- `Robot::read(std::function<bool(const RobotState&)> read_callback)`
(robot.cpp:207–221). -/
def read (mutex : Bool) (read_callback : RobotState → Bool)
    (incoming : List RIRobotState) : SessionResult :=
  guardedSession mutex (readLoop read_callback incoming)

/-- Body of `Robot::readOnce` after the guard (robot.cpp:231):
`impl_->readOnce()` receives and converts one state and returns it. -/
def readOnceBody : List RIRobotState → ControlOutcome × List Event
  | [] => (.starved, [])
  | s :: _ => (.ok, [.received s, .callback (convertRobotState s)])

/-- `Robot::readOnce()` (robot.cpp:223–232). The returned converted
state appears in the trace as the `callback` event (the state handed
back to the caller). -/
def readOnce (mutex : Bool) (incoming : List RIRobotState) : SessionResult :=
  guardedSession mutex (readOnceBody incoming)

/-- `Robot::setCollisionBehavior` (8-argument overload,
robot.cpp:240–253): forwards all eight threshold arrays to
`impl_->executeCommand<SetCollisionBehavior>`; note the function does
not touch `control_mutex_` at all, so `mutex` is carried through
unchanged and never consulted. -/
def setCollisionBehavior8 (mutex : Bool)
    (lower_torque_thresholds_acceleration upper_torque_thresholds_acceleration
     lower_torque_thresholds_nominal upper_torque_thresholds_nominal
     lower_force_thresholds_acceleration upper_force_thresholds_acceleration
     lower_force_thresholds_nominal upper_force_thresholds_nominal : List Int) :
    SessionResult :=
  { outcome := .ok, mutexAfter := mutex, releases := 0,
    events := [.sent (.SetCollisionBehavior
      lower_torque_thresholds_acceleration upper_torque_thresholds_acceleration
      lower_torque_thresholds_nominal upper_torque_thresholds_nominal
      lower_force_thresholds_acceleration upper_force_thresholds_acceleration
      lower_force_thresholds_nominal upper_force_thresholds_nominal)] }

/-- `Robot::setCollisionBehavior` (4-argument overload,
robot.cpp:255–263): forwards each torque-threshold array twice (for the
acceleration and the nominal pair) and each force-threshold array twice. -/
def setCollisionBehavior4 (mutex : Bool)
    (lower_torque_thresholds upper_torque_thresholds : List Int)
    (lower_force_thresholds upper_force_thresholds : List Int) :
    SessionResult :=
  { outcome := .ok, mutexAfter := mutex, releases := 0,
    events := [.sent (.SetCollisionBehavior
      lower_torque_thresholds upper_torque_thresholds
      lower_torque_thresholds upper_torque_thresholds
      lower_force_thresholds upper_force_thresholds
      lower_force_thresholds upper_force_thresholds)] }

/-- `Robot::setJointImpedance` (robot.cpp:265–268); no guard is taken. -/
def setJointImpedance (mutex : Bool) (K_theta : List Int) : SessionResult :=
  { outcome := .ok, mutexAfter := mutex, releases := 0,
    events := [.sent (.SetJointImpedance K_theta)] }

/-- `Robot::setCartesianImpedance` (robot.cpp:270–273); no guard. -/
def setCartesianImpedance (mutex : Bool) (K_x : List Int) : SessionResult :=
  { outcome := .ok, mutexAfter := mutex, releases := 0,
    events := [.sent (.SetCartesianImpedance K_x)] }

/-- `Robot::setGuidingMode` (robot.cpp:275–277); no guard. -/
def setGuidingMode (mutex : Bool) (guiding_mode : List Bool) (elbow : Bool) :
    SessionResult :=
  { outcome := .ok, mutexAfter := mutex, releases := 0,
    events := [.sent (.SetGuidingMode guiding_mode elbow)] }

/-- `Robot::setK` (robot.cpp:279–281); no guard. -/
def setK (mutex : Bool) (EE_T_K : List Int) : SessionResult :=
  { outcome := .ok, mutexAfter := mutex, releases := 0,
    events := [.sent (.SetEEToK EE_T_K)] }

/-- `Robot::setEE` (robot.cpp:283–285); no guard. -/
def setEE (mutex : Bool) (F_T_EE : List Int) : SessionResult :=
  { outcome := .ok, mutexAfter := mutex, releases := 0,
    events := [.sent (.SetFToEE F_T_EE)] }

/-- `Robot::setLoad` (robot.cpp:287–291); no guard. -/
def setLoad (mutex : Bool) (load_mass : Int) (F_x_Cload load_inertia : List Int) :
    SessionResult :=
  { outcome := .ok, mutexAfter := mutex, releases := 0,
    events := [.sent (.SetLoad load_mass F_x_Cload load_inertia)] }

/-- `Robot::automaticErrorRecovery` (robot.cpp:293–295); no guard. -/
def automaticErrorRecovery (mutex : Bool) : SessionResult :=
  { outcome := .ok, mutexAfter := mutex, releases := 0,
    events := [.sent .AutomaticErrorRecovery] }

end Robot

/-- One atomic `try_lock` on `control_mutex_`: from the unlocked state it
locks and reports success; from the locked state it leaves the mutex as
is and reports failure immediately (a non-blocking operation, so it is a
single atomic step with no waiting). Returns (new state, success). -/
def tryLock : Bool → Bool × Bool
  | false => (true, true)
  | true => (true, false)

/-- `n` concurrent session-start attempts on the same handle: because
`std::mutex::try_lock` is atomic, any concurrent execution is some
serialization of the `n` atomic attempts, and all serializations act the
same on the lock state. Returns the number of attempts that succeeded,
starting from lock state `st`, with no intervening release. -/
def runAttempts : Bool → Nat → Nat
  | _, 0 => 0
  | st, n + 1 =>
    let r := tryLock st
    (if r.2 then 1 else 0) + runAttempts r.1 n

/-! ### Helper lemmas about the loops and their event traces -/

/-- The events contributed by a run of consecutive cycles that all pass
the mode check and on which the callback asks to continue. -/
def cycleEvents : List RIRobotState → List Event
  | [] => []
  | s :: rest => .received s :: .callback (convertRobotState s) :: cycleEvents rest

lemma receivedOf_append (a b : List Event) :
    receivedOf (a ++ b) = receivedOf a ++ receivedOf b := by
  simp [receivedOf, List.filterMap_append]

lemma callbacksOf_append (a b : List Event) :
    callbacksOf (a ++ b) = callbacksOf a ++ callbacksOf b := by
  simp [callbacksOf, List.filterMap_append]

lemma sentOf_append (a b : List Event) :
    sentOf (a ++ b) = sentOf a ++ sentOf b := by
  simp [sentOf, List.filterMap_append]

lemma receivedOf_cycleEvents (l : List RIRobotState) :
    receivedOf (cycleEvents l) = l := by
  induction l with
  | nil => rfl
  | cons s rest ih => simp [cycleEvents, receivedOf, List.filterMap_cons] at ih ⊢; exact ih

lemma callbacksOf_cycleEvents (l : List RIRobotState) :
    callbacksOf (cycleEvents l) = l.map convertRobotState := by
  induction l with
  | nil => rfl
  | cons s rest ih => simp [cycleEvents, callbacksOf, List.filterMap_cons] at ih ⊢; exact ih

lemma sentOf_cycleEvents (l : List RIRobotState) :
    sentOf (cycleEvents l) = [] := by
  induction l with
  | nil => rfl
  | cons s rest ih => simp [cycleEvents, sentOf, List.filterMap_cons] at ih ⊢; exact ih

lemma controlReadLoop_append_good (scm : RIControllerMode)
    (cb : RobotState → Bool) (goods l : List RIRobotState)
    (hg : ∀ s ∈ goods, s.controller_mode = scm ∧ cb (convertRobotState s) = true) :
    controlReadLoop scm cb (goods ++ l) =
      ((controlReadLoop scm cb l).1,
        cycleEvents goods ++ (controlReadLoop scm cb l).2) := by
  induction goods with
  | nil => simp [cycleEvents]
  | cons s gs ih =>
    obtain ⟨h1, h2⟩ := hg s (by simp)
    have ih' := ih fun t ht => hg t (by simp [ht])
    simp [controlReadLoop, h1, h2, cycleEvents, ih']

lemma readLoop_append_good (cb : RobotState → Bool) (goods l : List RIRobotState)
    (hg : ∀ s ∈ goods, cb (convertRobotState s) = true) :
    readLoop cb (goods ++ l) =
      ((readLoop cb l).1, cycleEvents goods ++ (readLoop cb l).2) := by
  induction goods with
  | nil => simp [cycleEvents]
  | cons s gs ih =>
    have h1 := hg s (by simp)
    have ih' := ih fun t ht => hg t (by simp [ht])
    simp [readLoop, h1, cycleEvents, ih']

lemma sentOf_controlReadLoop (scm : RIControllerMode) (cb : RobotState → Bool)
    (l : List RIRobotState) :
    sentOf (controlReadLoop scm cb l).2 = [] := by
  induction l with
  | nil => rfl
  | cons s rest ih =>
    by_cases h1 : s.controller_mode = scm
    · by_cases h2 : cb (convertRobotState s) = true
      · simp [controlReadLoop, h1, h2, sentOf, List.filterMap_cons] at ih ⊢; exact ih
      · simp [controlReadLoop, h1, h2, sentOf, List.filterMap_cons]
    · simp [controlReadLoop, h1, sentOf, List.filterMap_cons]

lemma sentOf_motionGeneratorPhase (scm : RIControllerMode)
    (mgcb : RobotState → MotionTarget × Bool) (l : List RIRobotState) :
    sentOf (motionGeneratorPhase scm mgcb l).2 = [] := by
  induction l with
  | nil => rfl
  | cons s rest ih =>
    by_cases h1 : s.controller_mode = scm
    · by_cases h2 : (mgcb (convertRobotState s)).2 = true
      · simp [motionGeneratorPhase, h1, h2, sentOf, List.filterMap_cons]
      · simp [motionGeneratorPhase, h1, h2, sentOf, List.filterMap_cons] at ih ⊢; exact ih
    · simp [motionGeneratorPhase, h1, sentOf, List.filterMap_cons]

lemma controlReadLoop_fault_any (scm : RIControllerMode) (cb : RobotState → Bool)
    (l : List RIRobotState) :
    (controlReadLoop scm cb l).1 = .err .controlException ↔
      (receivedOf (controlReadLoop scm cb l).2).any
        (fun s => s.controller_mode != scm) = true := by
  induction l with
  | nil => simp [controlReadLoop, receivedOf]
  | cons s rest ih =>
    by_cases h1 : s.controller_mode = scm
    · by_cases h2 : cb (convertRobotState s) = true
      · simpa [controlReadLoop, h1, h2, receivedOf, List.filterMap_cons] using ih
      · simp [controlReadLoop, h1, h2, receivedOf, List.filterMap_cons]
    · simp [controlReadLoop, h1, receivedOf, List.filterMap_cons]

lemma motionGeneratorPhase_fault_any (scm : RIControllerMode)
    (mgcb : RobotState → MotionTarget × Bool) (l : List RIRobotState) :
    (motionGeneratorPhase scm mgcb l).1 = .err .controlException ↔
      (receivedOf (motionGeneratorPhase scm mgcb l).2).any
        (fun s => s.controller_mode != scm) = true := by
  induction l with
  | nil => simp [motionGeneratorPhase, receivedOf]
  | cons s rest ih =>
    by_cases h1 : s.controller_mode = scm
    · by_cases h2 : (mgcb (convertRobotState s)).2 = true
      · simp [motionGeneratorPhase, h1, h2, receivedOf, List.filterMap_cons]
      · simpa [motionGeneratorPhase, h1, h2, receivedOf, List.filterMap_cons] using ih
    · simp [motionGeneratorPhase, h1, receivedOf, List.filterMap_cons]

lemma controlReadLoop_callbacks_mode (scm : RIControllerMode)
    (cb : RobotState → Bool) (l : List RIRobotState) (st : RobotState)
    (hst : st ∈ callbacksOf (controlReadLoop scm cb l).2) :
    st.controller_mode = scm := by
  induction l with
  | nil => simp [controlReadLoop, callbacksOf] at hst
  | cons s rest ih =>
    by_cases h1 : s.controller_mode = scm
    · by_cases h2 : cb (convertRobotState s) = true
      · simp [controlReadLoop, h1, h2, callbacksOf, List.filterMap_cons] at hst
        rcases hst with hst | hst
        · rw [hst]; exact h1
        · exact ih (by simpa [callbacksOf] using hst)
      · simp [controlReadLoop, h1, h2, callbacksOf, List.filterMap_cons] at hst
        rw [hst]; exact h1
    · simp [controlReadLoop, h1, callbacksOf, List.filterMap_cons] at hst

lemma runAttempts_locked (n : Nat) : runAttempts true n = 0 := by
  induction n with
  | zero => rfl
  | succ k ih => simp [runAttempts, tryLock, ih]

lemma receivedOf_sent_cons (c : RICommand) (evs : List Event) :
    receivedOf (.sent c :: evs) = receivedOf evs := by
  simp [receivedOf, List.filterMap_cons]

lemma callbacksOf_sent_cons (c : RICommand) (evs : List Event) :
    callbacksOf (.sent c :: evs) = callbacksOf evs := by
  simp [callbacksOf, List.filterMap_cons]

lemma sentOf_sent_cons (c : RICommand) (evs : List Event) :
    sentOf (.sent c :: evs) = c :: sentOf evs := by
  simp [sentOf, List.filterMap_cons]

/-- A session whose trace starts with the one-shot `SetControllerMode`
command — so the command precedes every received state — where that is
the only TCP command of the whole session, and where the session ends in
the control fault exactly when some received state reports a controller
mode diverging from the requested one. -/
def oneShotModeThenModeChecked (m : SCMode) (scm : RIControllerMode)
    (r : SessionResult) : Prop :=
  r.events.head? = some (.sent (.SetControllerMode m)) ∧
  sentOf r.events = [.SetControllerMode m] ∧
  (r.outcome = .err .controlException ↔
    (receivedOf r.events).any (fun s => s.controller_mode != scm) = true)

lemma guarded_controlReadBody_props (controller_mode : ControllerMode)
    (m : SCMode) (scm : RIControllerMode)
    (hm : modeSelect controller_mode = some (m, scm))
    (cb : RobotState → Bool) (incoming : List RIRobotState) :
    oneShotModeThenModeChecked m scm
      (guardedSession false (controlReadBody controller_mode cb incoming)) := by
  have hB : controlReadBody controller_mode cb incoming =
      ((controlReadLoop scm cb incoming).1,
        .sent (.SetControllerMode m) :: (controlReadLoop scm cb incoming).2) := by
    simp [controlReadBody, hm]
  unfold oneShotModeThenModeChecked
  rw [hB]
  refine ⟨rfl, ?_, ?_⟩
  · show sentOf (Event.sent (.SetControllerMode m) ::
      (controlReadLoop scm cb incoming).2) = _
    rw [sentOf_sent_cons, sentOf_controlReadLoop]
  · show (controlReadLoop scm cb incoming).1 = _ ↔
      (receivedOf (Event.sent (.SetControllerMode m) ::
        (controlReadLoop scm cb incoming).2)).any _ = true
    rw [receivedOf_sent_cons]
    exact controlReadLoop_fault_any scm cb incoming

lemma guarded_motionGeneratorBody_props (controller_mode : ControllerMode)
    (m : SCMode) (scm : RIControllerMode)
    (hm : modeSelect controller_mode = some (m, scm))
    (mgcb : RobotState → MotionTarget × Bool) (incoming : List RIRobotState) :
    oneShotModeThenModeChecked m scm
      (guardedSession false (motionGeneratorBody controller_mode mgcb incoming)) := by
  have hB : motionGeneratorBody controller_mode mgcb incoming =
      ((motionGeneratorPhase scm mgcb incoming).1,
        .sent (.SetControllerMode m) :: (motionGeneratorPhase scm mgcb incoming).2) := by
    simp [motionGeneratorBody, hm]
  unfold oneShotModeThenModeChecked
  rw [hB]
  refine ⟨rfl, ?_, ?_⟩
  · show sentOf (Event.sent (.SetControllerMode m) ::
      (motionGeneratorPhase scm mgcb incoming).2) = _
    rw [sentOf_sent_cons, sentOf_motionGeneratorPhase]
  · show (motionGeneratorPhase scm mgcb incoming).1 = _ ↔
      (receivedOf (Event.sent (.SetControllerMode m) ::
        (motionGeneratorPhase scm mgcb incoming).2)).any _ = true
    rw [receivedOf_sent_cons]
    exact motionGeneratorPhase_fault_any scm mgcb incoming

/-! ### The claims -/

/-- C1: every public session entry point (all nine control overloads,
read, and readOnce), called while another control or read session holds
the session guard (`control_mutex_` locked), fails immediately with the
session-busy `InvalidOperationException`: the guard is left untouched
(still held, not released by this call) and the event trace is empty —
no command sent, no state received, no callback invoked. -/
theorem c1_entry_points_fail_busy_without_side_effects
    (controller_mode : ControllerMode) (read_callback : RobotState → Bool)
    (motion_generator_callback : RobotState → List Int × Bool)
    (body : ControlOutcome × List Event) (incoming : List RIRobotState) :
    Robot.control_mode_read true controller_mode read_callback incoming = busyResult ∧
    Robot.control_torque true body = busyResult ∧
    Robot.control_torque_jointPositions true body = busyResult ∧
    Robot.control_torque_jointVelocities true body = busyResult ∧
    Robot.control_torque_cartesianPose true body = busyResult ∧
    Robot.control_torque_cartesianVelocities true body = busyResult ∧
    Robot.control_jointPositions_mode true motion_generator_callback controller_mode incoming = busyResult ∧
    Robot.control_jointVelocities_mode true motion_generator_callback controller_mode incoming = busyResult ∧
    Robot.control_cartesianPose_mode true motion_generator_callback controller_mode incoming = busyResult ∧
    Robot.control_cartesianVelocities_mode true motion_generator_callback controller_mode incoming = busyResult ∧
    Robot.read true read_callback incoming = busyResult ∧
    Robot.readOnce true incoming = busyResult := by
  refine ⟨rfl, rfl, rfl, rfl, rfl, rfl, rfl, rfl, rfl, rfl, rfl, rfl⟩

/-- C2: every session that actually starts (the guard was free, so the
`try_to_lock` acquisition succeeded) releases the session guard exactly
once, on every exit path — whatever outcome the session body produces
(normal return, early break, or a propagated exception), and this holds
for all nine control overloads, read, and readOnce; afterwards the mutex
is unlocked, so a new session can acquire it. -/
theorem c2_guard_released_exactly_once_all_exit_paths
    (controller_mode : ControllerMode) (read_callback : RobotState → Bool)
    (motion_generator_callback : RobotState → List Int × Bool)
    (body : ControlOutcome × List Event) (incoming : List RIRobotState) :
    ((Robot.control_mode_read false controller_mode read_callback incoming).releases = 1 ∧
      (Robot.control_mode_read false controller_mode read_callback incoming).mutexAfter = false) ∧
    ((Robot.control_torque false body).releases = 1 ∧
      (Robot.control_torque false body).mutexAfter = false) ∧
    ((Robot.control_torque_jointPositions false body).releases = 1 ∧
      (Robot.control_torque_jointPositions false body).mutexAfter = false) ∧
    ((Robot.control_torque_jointVelocities false body).releases = 1 ∧
      (Robot.control_torque_jointVelocities false body).mutexAfter = false) ∧
    ((Robot.control_torque_cartesianPose false body).releases = 1 ∧
      (Robot.control_torque_cartesianPose false body).mutexAfter = false) ∧
    ((Robot.control_torque_cartesianVelocities false body).releases = 1 ∧
      (Robot.control_torque_cartesianVelocities false body).mutexAfter = false) ∧
    ((Robot.control_jointPositions_mode false motion_generator_callback controller_mode incoming).releases = 1 ∧
      (Robot.control_jointPositions_mode false motion_generator_callback controller_mode incoming).mutexAfter = false) ∧
    ((Robot.control_jointVelocities_mode false motion_generator_callback controller_mode incoming).releases = 1 ∧
      (Robot.control_jointVelocities_mode false motion_generator_callback controller_mode incoming).mutexAfter = false) ∧
    ((Robot.control_cartesianPose_mode false motion_generator_callback controller_mode incoming).releases = 1 ∧
      (Robot.control_cartesianPose_mode false motion_generator_callback controller_mode incoming).mutexAfter = false) ∧
    ((Robot.control_cartesianVelocities_mode false motion_generator_callback controller_mode incoming).releases = 1 ∧
      (Robot.control_cartesianVelocities_mode false motion_generator_callback controller_mode incoming).mutexAfter = false) ∧
    ((Robot.read false read_callback incoming).releases = 1 ∧
      (Robot.read false read_callback incoming).mutexAfter = false) ∧
    ((Robot.readOnce false incoming).releases = 1 ∧
      (Robot.readOnce false incoming).mutexAfter = false) := by
  refine ⟨⟨rfl, rfl⟩, ⟨rfl, rfl⟩, ⟨rfl, rfl⟩, ⟨rfl, rfl⟩, ⟨rfl, rfl⟩, ⟨rfl, rfl⟩,
    ⟨rfl, rfl⟩, ⟨rfl, rfl⟩, ⟨rfl, rfl⟩, ⟨rfl, rfl⟩, ⟨rfl, rfl⟩, ⟨rfl, rfl⟩⟩

/-- C3 counterexample: the claim says a configuration command invoked
while a session is active is rejected by the session guard's
mutual-exclusion mechanism; but with the guard held (`mutex = true`),
`Robot::setJointImpedance` does not fail with the session-busy
condition — it sends its command to the robot regardless. -/
theorem c3_counterexample_config_commands_not_guarded :
    (Robot.setJointImpedance true [1]).outcome ≠
      ControlOutcome.err SessionError.invalidOperation ∧
    sentOf (Robot.setJointImpedance true [1]).events =
      [RICommand.SetJointImpedance [1]] := by
  refine ⟨by decide, rfl⟩

/-- C3 amended: the configuration commands (both setCollisionBehavior
overloads, setJointImpedance, setCartesianImpedance, setGuidingMode,
setK, setEE, setLoad, automaticErrorRecovery) never consult the session
guard at all: whatever the guard's state, each succeeds, leaves the
guard exactly as it found it, releases nothing, and sends exactly its
one command — it is neither rejected nor serialized against an active
session by `control_mutex_`. -/
theorem c3_amended_config_commands_bypass_guard (mutex : Bool)
    (a b c d : List Int) (e f g h : List Int) (gm : List Bool) (elbow : Bool)
    (mass : Int) :
    Robot.setCollisionBehavior8 mutex a b c d e f g h =
      { outcome := .ok, mutexAfter := mutex, releases := 0,
        events := [.sent (.SetCollisionBehavior a b c d e f g h)] } ∧
    Robot.setCollisionBehavior4 mutex a b e f =
      { outcome := .ok, mutexAfter := mutex, releases := 0,
        events := [.sent (.SetCollisionBehavior a b a b e f e f)] } ∧
    Robot.setJointImpedance mutex a =
      { outcome := .ok, mutexAfter := mutex, releases := 0,
        events := [.sent (.SetJointImpedance a)] } ∧
    Robot.setCartesianImpedance mutex e =
      { outcome := .ok, mutexAfter := mutex, releases := 0,
        events := [.sent (.SetCartesianImpedance e)] } ∧
    Robot.setGuidingMode mutex gm elbow =
      { outcome := .ok, mutexAfter := mutex, releases := 0,
        events := [.sent (.SetGuidingMode gm elbow)] } ∧
    Robot.setK mutex a =
      { outcome := .ok, mutexAfter := mutex, releases := 0,
        events := [.sent (.SetEEToK a)] } ∧
    Robot.setEE mutex a =
      { outcome := .ok, mutexAfter := mutex, releases := 0,
        events := [.sent (.SetFToEE a)] } ∧
    Robot.setLoad mutex mass a b =
      { outcome := .ok, mutexAfter := mutex, releases := 0,
        events := [.sent (.SetLoad mass a b)] } ∧
    Robot.automaticErrorRecovery mutex =
      { outcome := .ok, mutexAfter := mutex, releases := 0,
        events := [.sent .AutomaticErrorRecovery] } := by
  refine ⟨rfl, rfl, rfl, rfl, rfl, rfl, rfl, rfl, rfl⟩

/-- C5: calling `control(ControllerMode, read_callback)` with a
controller mode that is neither `kJointImpedance` nor
`kCartesianImpedance` (the `default:` branch of the switch, i.e.
`modeSelect` yields `none`) reports `std::invalid_argument`
synchronously and produces an empty event trace: no command — in
particular no `SetControllerMode` — is sent, no state is received. -/
theorem c5_invalid_mode_synchronous_no_command
    (controller_mode : ControllerMode)
    (hm : modeSelect controller_mode = none)
    (read_callback : RobotState → Bool) (incoming : List RIRobotState) :
    (Robot.control_mode_read false controller_mode read_callback incoming).outcome =
      ControlOutcome.err SessionError.invalidArgument ∧
    (Robot.control_mode_read false controller_mode read_callback incoming).events = [] := by
  simp [Robot.control_mode_read, guardedSession, controlReadBody, hm]

/-- Witness for C5 at the concrete out-of-range mode. -/
theorem c5_witness :
    (Robot.control_mode_read false .otherMode (fun _ => true) []).outcome =
      ControlOutcome.err SessionError.invalidArgument ∧
    (Robot.control_mode_read false .otherMode (fun _ => true) []).events = [] :=
  c5_invalid_mode_synchronous_no_command .otherMode rfl (fun _ => true) []

/-- C4: in the mode-checked session `control(ControllerMode,
read_callback)`, after any number of cycles whose states carry the
requested mode and on which the callback continues, the first state
reporting a diverging controller mode terminates the session with the
control fault on that very cycle: the faulting state is the last one
received (none of the remaining input is consumed — no further cycles,
no retry within the session), and the callback was invoked only on the
states before it. -/
theorem c4_mode_mismatch_terminal
    (controller_mode : ControllerMode) (m : SCMode) (scm : RIControllerMode)
    (hm : modeSelect controller_mode = some (m, scm))
    (cb : RobotState → Bool) (goods : List RIRobotState)
    (bad : RIRobotState) (rest : List RIRobotState)
    (hg : ∀ s ∈ goods, s.controller_mode = scm ∧ cb (convertRobotState s) = true)
    (hb : bad.controller_mode ≠ scm) :
    (Robot.control_mode_read false controller_mode cb (goods ++ bad :: rest)).outcome =
      ControlOutcome.err SessionError.controlException ∧
    receivedOf (Robot.control_mode_read false controller_mode cb
      (goods ++ bad :: rest)).events = goods ++ [bad] ∧
    callbacksOf (Robot.control_mode_read false controller_mode cb
      (goods ++ bad :: rest)).events = goods.map convertRobotState := by
  have hloop : controlReadLoop scm cb (goods ++ bad :: rest) =
      (.err .controlException, cycleEvents goods ++ [.received bad]) := by
    rw [controlReadLoop_append_good scm cb goods _ hg]
    simp [controlReadLoop, hb]
  have hev : (Robot.control_mode_read false controller_mode cb
      (goods ++ bad :: rest)).events =
      .sent (.SetControllerMode m) :: (cycleEvents goods ++ [.received bad]) := by
    simp [Robot.control_mode_read, guardedSession, controlReadBody, hm, hloop]
  refine ⟨?_, ?_, ?_⟩
  · simp [Robot.control_mode_read, guardedSession, controlReadBody, hm, hloop]
  · rw [hev, receivedOf_sent_cons, receivedOf_append, receivedOf_cycleEvents]
    simp [receivedOf, List.filterMap_cons]
  · rw [hev, callbacksOf_sent_cons, callbacksOf_append, callbacksOf_cycleEvents]
    simp [callbacksOf, List.filterMap_cons]

/-- Witness for C4: one matching cycle, then a state reporting `kOther`
while `kJointImpedance` was requested; a further matching state is left
unconsumed. -/
theorem c4_witness :
    (Robot.control_mode_read false .kJointImpedance (fun _ => true)
      ([⟨.kJointImpedance, 0⟩] ++ ⟨.kOther, 1⟩ :: [⟨.kJointImpedance, 2⟩])).outcome =
      ControlOutcome.err SessionError.controlException ∧
    receivedOf (Robot.control_mode_read false .kJointImpedance (fun _ => true)
      ([⟨.kJointImpedance, 0⟩] ++ ⟨.kOther, 1⟩ :: [⟨.kJointImpedance, 2⟩])).events =
      [⟨.kJointImpedance, 0⟩] ++ [⟨.kOther, 1⟩] ∧
    callbacksOf (Robot.control_mode_read false .kJointImpedance (fun _ => true)
      ([⟨.kJointImpedance, 0⟩] ++ ⟨.kOther, 1⟩ :: [⟨.kJointImpedance, 2⟩])).events =
      List.map convertRobotState [⟨.kJointImpedance, 0⟩] :=
  c4_mode_mismatch_terminal .kJointImpedance .kJointImpedance .kJointImpedance rfl
    (fun _ => true) [⟨.kJointImpedance, 0⟩] ⟨.kOther, 1⟩ [⟨.kJointImpedance, 2⟩]
    (by decide) (by decide)

/-- C6: in a read session, each cycle receives one state, converts it
and invokes the read predicate on it exactly once; the loop runs through
every state on which the predicate returns `true` and returns control
normally after the first state on which it returns `false` (consuming
nothing further), and the whole session sends no command. -/
theorem c6_read_loop_per_cycle (cb : RobotState → Bool)
    (goods : List RIRobotState) (stop : RIRobotState) (rest : List RIRobotState)
    (hg : ∀ s ∈ goods, cb (convertRobotState s) = true)
    (hs : cb (convertRobotState stop) = false) :
    (Robot.read false cb (goods ++ stop :: rest)).outcome = ControlOutcome.ok ∧
    receivedOf (Robot.read false cb (goods ++ stop :: rest)).events =
      goods ++ [stop] ∧
    callbacksOf (Robot.read false cb (goods ++ stop :: rest)).events =
      (goods ++ [stop]).map convertRobotState ∧
    sentOf (Robot.read false cb (goods ++ stop :: rest)).events = [] := by
  have hloop : readLoop cb (goods ++ stop :: rest) =
      (.ok, cycleEvents goods ++
        [.received stop, .callback (convertRobotState stop)]) := by
    rw [readLoop_append_good cb goods _ hg]
    simp [readLoop, hs]
  have hev : (Robot.read false cb (goods ++ stop :: rest)).events =
      cycleEvents goods ++ [.received stop, .callback (convertRobotState stop)] := by
    simp [Robot.read, guardedSession, hloop]
  refine ⟨?_, ?_, ?_, ?_⟩
  · simp [Robot.read, guardedSession, hloop]
  · rw [hev, receivedOf_append, receivedOf_cycleEvents]
    simp [receivedOf, List.filterMap_cons]
  · rw [hev, callbacksOf_append, callbacksOf_cycleEvents]
    simp [callbacksOf, List.filterMap_cons]
  · rw [hev, sentOf_append, sentOf_cycleEvents]
    simp [sentOf, List.filterMap_cons]

/-- Witness for C6: two states on which the predicate continues, one on
which it stops, one left unconsumed. -/
theorem c6_witness :
    (Robot.read false (fun s => s.payload < 2)
      ([⟨.kOther, 0⟩, ⟨.kOther, 1⟩] ++ ⟨.kOther, 7⟩ :: [⟨.kOther, 0⟩])).outcome =
      ControlOutcome.ok ∧
    receivedOf (Robot.read false (fun s => s.payload < 2)
      ([⟨.kOther, 0⟩, ⟨.kOther, 1⟩] ++ ⟨.kOther, 7⟩ :: [⟨.kOther, 0⟩])).events =
      [⟨.kOther, 0⟩, ⟨.kOther, 1⟩] ++ [⟨.kOther, 7⟩] ∧
    callbacksOf (Robot.read false (fun s => s.payload < 2)
      ([⟨.kOther, 0⟩, ⟨.kOther, 1⟩] ++ ⟨.kOther, 7⟩ :: [⟨.kOther, 0⟩])).events =
      List.map convertRobotState ([⟨.kOther, 0⟩, ⟨.kOther, 1⟩] ++ [⟨.kOther, 7⟩]) ∧
    sentOf (Robot.read false (fun s => s.payload < 2)
      ([⟨.kOther, 0⟩, ⟨.kOther, 1⟩] ++ ⟨.kOther, 7⟩ :: [⟨.kOther, 0⟩])).events = [] :=
  c6_read_loop_per_cycle (fun s => s.payload < 2)
    [⟨.kOther, 0⟩, ⟨.kOther, 1⟩] ⟨.kOther, 7⟩ [⟨.kOther, 0⟩]
    (by decide) (by decide)

/-- C7: in every session built from a desired `ControllerMode` — the
mode-checked read-callback session and all four motion-generator +
controller-mode sessions — the one-shot `SetControllerMode` command is
the very first event of the session (hence issued before the first state
of the periodic phase is received), it is the only TCP command the
session ever sends, and mode-mismatch fault detection governs every
subsequent cycle: the session ends in the control fault exactly when a
received state reports a mode diverging from the requested one. -/
theorem c7_mode_command_once_before_loop
    (controller_mode : ControllerMode) (m : SCMode) (scm : RIControllerMode)
    (hm : modeSelect controller_mode = some (m, scm))
    (cb : RobotState → Bool) (mgcb : RobotState → List Int × Bool)
    (incoming : List RIRobotState) :
    oneShotModeThenModeChecked m scm
      (Robot.control_mode_read false controller_mode cb incoming) ∧
    oneShotModeThenModeChecked m scm
      (Robot.control_jointPositions_mode false mgcb controller_mode incoming) ∧
    oneShotModeThenModeChecked m scm
      (Robot.control_jointVelocities_mode false mgcb controller_mode incoming) ∧
    oneShotModeThenModeChecked m scm
      (Robot.control_cartesianPose_mode false mgcb controller_mode incoming) ∧
    oneShotModeThenModeChecked m scm
      (Robot.control_cartesianVelocities_mode false mgcb controller_mode incoming) :=
  ⟨guarded_controlReadBody_props controller_mode m scm hm cb incoming,
   guarded_motionGeneratorBody_props controller_mode m scm hm _ incoming,
   guarded_motionGeneratorBody_props controller_mode m scm hm _ incoming,
   guarded_motionGeneratorBody_props controller_mode m scm hm _ incoming,
   guarded_motionGeneratorBody_props controller_mode m scm hm _ incoming⟩

/-- Witness for C7 at a concrete session: one matching state on which
both callbacks finish. -/
theorem c7_witness :
    oneShotModeThenModeChecked .kCartesianImpedance .kCartesianImpedance
      (Robot.control_mode_read false .kCartesianImpedance (fun _ => false)
        [⟨.kCartesianImpedance, 3⟩]) ∧
    oneShotModeThenModeChecked .kCartesianImpedance .kCartesianImpedance
      (Robot.control_jointPositions_mode false (fun _ => ([4], true))
        .kCartesianImpedance [⟨.kCartesianImpedance, 3⟩]) ∧
    oneShotModeThenModeChecked .kCartesianImpedance .kCartesianImpedance
      (Robot.control_jointVelocities_mode false (fun _ => ([4], true))
        .kCartesianImpedance [⟨.kCartesianImpedance, 3⟩]) ∧
    oneShotModeThenModeChecked .kCartesianImpedance .kCartesianImpedance
      (Robot.control_cartesianPose_mode false (fun _ => ([4], true))
        .kCartesianImpedance [⟨.kCartesianImpedance, 3⟩]) ∧
    oneShotModeThenModeChecked .kCartesianImpedance .kCartesianImpedance
      (Robot.control_cartesianVelocities_mode false (fun _ => ([4], true))
        .kCartesianImpedance [⟨.kCartesianImpedance, 3⟩]) :=
  c7_mode_command_once_before_loop .kCartesianImpedance .kCartesianImpedance
    .kCartesianImpedance rfl (fun _ => false) (fun _ => ([4], true))
    [⟨.kCartesianImpedance, 3⟩]

/-- C8: any number `n ≥ 1` of concurrent session-start attempts on the
same handle — each beginning with the atomic non-blocking `try_lock`, so
any concurrent execution is a serialization of `n` atomic attempts on
the free guard — yields exactly one success: `n - 1` attempts fail, and
an attempt that finds the guard held (here a `read` call) returns the
session-busy result immediately with no side effect. -/
theorem c8_concurrent_attempts_one_success (n : Nat) (h : 1 ≤ n)
    (read_callback : RobotState → Bool) (incoming : List RIRobotState) :
    runAttempts false n = 1 ∧
    Robot.read true read_callback incoming = busyResult := by
  constructor
  · cases n with
    | zero => exact absurd h (by decide)
    | succ k => simp [runAttempts, tryLock, runAttempts_locked]
  · rfl

/-- Witness for C8 with two concurrent attempts. -/
theorem c8_witness :
    runAttempts false 2 = 1 ∧
    Robot.read true (fun _ => true) [] = busyResult :=
  c8_concurrent_attempts_one_success 2 (by decide) (fun _ => true) []

/-- C10: in the mode-checked session `control(ControllerMode,
read_callback)`, the read callback is never invoked on a state whose
reported controller mode differs from the requested one: every state in
the session's callback trace carries the requested mode, because the
mode check precedes the callback on every cycle. -/
theorem c10_callback_only_requested_mode
    (controller_mode : ControllerMode) (m : SCMode) (scm : RIControllerMode)
    (hm : modeSelect controller_mode = some (m, scm)) (mutex : Bool)
    (cb : RobotState → Bool) (incoming : List RIRobotState) (st : RobotState)
    (hst : st ∈ callbacksOf
      (Robot.control_mode_read mutex controller_mode cb incoming).events) :
    st.controller_mode = scm := by
  cases mutex with
  | true => simp [Robot.control_mode_read, guardedSession, busyResult, callbacksOf] at hst
  | false =>
    have hev : (Robot.control_mode_read false controller_mode cb incoming).events =
        .sent (.SetControllerMode m) :: (controlReadLoop scm cb incoming).2 := by
      simp [Robot.control_mode_read, guardedSession, controlReadBody, hm]
    rw [hev, callbacksOf_sent_cons] at hst
    exact controlReadLoop_callbacks_mode scm cb incoming st hst

/-- Witness for C10: the single state the callback observes in a
concrete session carries the requested joint-impedance mode. -/
theorem c10_witness :
    RobotState.controller_mode ⟨.kJointImpedance, 5⟩ = RIControllerMode.kJointImpedance :=
  c10_callback_only_requested_mode .kJointImpedance .kJointImpedance
    .kJointImpedance rfl false (fun _ => false) [⟨.kJointImpedance, 5⟩]
    ⟨.kJointImpedance, 5⟩ (by decide)

/-- C9: the four-argument `setCollisionBehavior` overload is, for every
guard state and all threshold arrays, the same operation as the
eight-argument overload called with the torque thresholds duplicated for
the acceleration and nominal pairs and the force thresholds duplicated
likewise. -/
theorem c9_setCollisionBehavior_overload_equiv (mutex : Bool)
    (lower_torque_thresholds upper_torque_thresholds : List Int)
    (lower_force_thresholds upper_force_thresholds : List Int) :
    Robot.setCollisionBehavior4 mutex lower_torque_thresholds
        upper_torque_thresholds lower_force_thresholds upper_force_thresholds =
      Robot.setCollisionBehavior8 mutex
        lower_torque_thresholds upper_torque_thresholds
        lower_torque_thresholds upper_torque_thresholds
        lower_force_thresholds upper_force_thresholds
        lower_force_thresholds upper_force_thresholds := rfl

end Franka
